import Mathlib

/-!
Verification development for the mgbc-web rocket-telemetry dashboards.

The repository consists of near-duplicate Python dashboards sharing a small
core: a CSV telemetry line codec (`parse_csv_string`, three variants), a
board-state aggregator (`SharedDataStore` in `unifiedDashboard.py`), a
scoring engine (`ground_update_charts`), a latitude/longitude clamp
(`clamp_lat_lon` in `ws_server.py` / `wss_server.py`) and a synthetic
flight simulator (`generate_rocket_flight_data`).  This file gives a
shallow embedding of those functions over exact rationals (Python floats
are modelled as ℚ; float formatting round-trips are modelled exactly and
noted where they occur) and proves the specified properties about them.
-/

namespace Mgbc

/-! ## Character-list helpers

Python string operations used by the source: `needle in hay` (substring
test), `s.startswith(p)`.  Implemented directly over `List Char` so that
everything is executable and decidable. -/

/-- Predicate `leadsWith needle hay` is true when `needle` occurs at the very start
of `hay` (Python `hay.startswith(needle)` on the character level). -/
def leadsWith : List Char → List Char → Bool
  | [], _ => true
  | _ :: _, [] => false
  | a :: as, b :: bs => a == b && leadsWith as bs

/-- Predicate `hasSub needle hay` is true when `needle` occurs contiguously anywhere
inside `hay` (Python `needle in hay`). -/
def hasSub (needle : List Char) : List Char → Bool
  | [] => leadsWith needle []
  | c :: t => leadsWith needle (c :: t) || hasSub needle t

/-- Python `needle in hay` on strings. -/
def strContains (hay needle : String) : Bool :=
  hasSub needle.toList hay.toList

/-- Python `hay.startswith(needle)` on strings. -/
def strStarts (hay needle : String) : Bool :=
  leadsWith needle.toList hay.toList

/-- Python `s.strip()`: drop whitespace from both ends. -/
def pyStrip (s : String) : String :=
  String.mk
    (((s.toList.dropWhile Char.isWhitespace).reverse.dropWhile
        Char.isWhitespace).reverse)

/-- Python `s.lower()`. -/
def pyLower (s : String) : String :=
  String.mk (s.toList.map Char.toLower)

/-- Python `s.upper()`. -/
def pyUpper (s : String) : String :=
  String.mk (s.toList.map Char.toUpper)

/-- Python `s.split(",")` at the character level: splitting the empty
list yields one empty field, and separators delimit (possibly empty)
fields. -/
def splitFields : List Char → List (List Char)
  | [] => [[]]
  | c :: t =>
    match splitFields t, decide (c = ',') with
    | r, true => [] :: r
    | [], false => [[c]]
    | f :: fs, false => (c :: f) :: fs

/-- Python `s.split(",")`. -/
def splitCommas (s : String) : List String :=
  (splitFields s.toList).map String.mk

/-! ## Model of Python `float()`

The dashboards convert CSV fields with the builtin `float()`.  We model it
on plain decimal literals (optional sign, integer part, optional fractional
part), which covers every numeric field the generators emit
(`f"{x:.2f}"` / `f"{x:.6f}"` formatting) and every concrete input used in
the theorems below.  Exotic accepted spellings (exponents, `inf`, `nan`,
underscores) are outside the model; no claim below depends on them.
A failed conversion (Python `ValueError`) is `none`. -/

/-- Value of a decimal digit, `none` for any other character. -/
def decDigit (c : Char) : Option ℕ :=
  if c.isDigit then some (c.toNat - 48) else none

/-- Reads a block of decimal digits as a natural number; `none` if any
character is not a digit.  The empty list yields `some 0`; emptiness is
checked by the caller. -/
def digitsToNat (cs : List Char) : Option ℕ :=
  cs.foldl
    (fun acc c =>
      match acc, decDigit c with
      | some a, some d => some (a * 10 + d)
      | _, _ => none)
    (some 0)

/-- Model of Python `float()` on decimal literals, as an exact rational. -/
def pyFloat (s : String) : Option ℚ :=
  let cs := (pyStrip s).toList
  let signed : ℚ × List Char :=
    match cs with
    | '-' :: r => (-1, r)
    | '+' :: r => (1, r)
    | r => (1, r)
  let sign := signed.1
  let body := signed.2
  let ip := body.takeWhile (fun c => c ≠ '.')
  let rest := body.dropWhile (fun c => c ≠ '.')
  match rest with
  | [] =>
    if ip.isEmpty then none
    else (digitsToNat ip).map (fun n => sign * (n : ℚ))
  | _ :: fp =>
    if fp.any (fun c => c = '.') then none
    else if ip.isEmpty && fp.isEmpty then none
    else
      match digitsToNat ip, digitsToNat fp with
      | some n, some m => some (sign * ((n : ℚ) + (m : ℚ) / (10 : ℚ) ^ fp.length))
      | _, _ => none

/-! ## Telemetry reading and the CSV parsers

Canonical 10-field schema:
`accel_x,accel_y,accel_z,lat,lon,temp,pressure,humidity,alt,phase`. -/

/-- One decoded telemetry sample (the dict produced by the parsers). -/
structure Reading where
  accel_x : ℚ
  accel_y : ℚ
  accel_z : ℚ
  lat : ℚ
  lon : ℚ
  temp : ℚ
  pressure : ℚ
  humidity : ℚ
  alt : ℚ
  phase : String
  deriving Repr, DecidableEq

/-- Function `parse_csv_string` from `unifiedDashboard.py` (lines 112-133).
Header skip uses `parts[0].lower().startswith("accel")`; the arity check is
only `len(parts) < 10`, so lines with MORE than 10 fields are accepted and
the fields beyond the tenth are ignored.  Any conversion failure
(exception) yields `none`. -/
def parse_csv_string_unified (csv_string : String) : Option Reading :=
  let parts := splitCommas (pyStrip csv_string)
  match parts with
  | [] => none
  | p0 :: _ =>
    if strStarts (pyLower p0) "accel" then none
    else if parts.length < 10 then none
    else do
      let ax ← pyFloat (parts.getD 0 "")
      let ay ← pyFloat (parts.getD 1 "")
      let az ← pyFloat (parts.getD 2 "")
      let la ← pyFloat (parts.getD 3 "")
      let lo ← pyFloat (parts.getD 4 "")
      let te ← pyFloat (parts.getD 5 "")
      let pr ← pyFloat (parts.getD 6 "")
      let hu ← pyFloat (parts.getD 7 "")
      let al ← pyFloat (parts.getD 8 "")
      some ⟨ax, ay, az, la, lo, te, pr, hu, al, pyStrip (parts.getD 9 "")⟩

/-- Function `parse_csv_string` from `additionals/deployDashboard.py` (lines 16-41).
Header skip is an exact case-insensitive match on `"accel_x"`; the arity
check is `len(parts) != 10`; the phase is trimmed and upper-cased. -/
def parse_csv_string_deploy (csv_string : String) : Option Reading :=
  let parts := splitCommas (pyStrip csv_string)
  match parts with
  | [] => none
  | p0 :: _ =>
    if pyLower p0 = "accel_x" then none
    else
      match parts with
      | [q0, q1, q2, q3, q4, q5, q6, q7, q8, q9] => do
        let ax ← pyFloat q0
        let ay ← pyFloat q1
        let az ← pyFloat q2
        let la ← pyFloat q3
        let lo ← pyFloat q4
        let te ← pyFloat q5
        let pr ← pyFloat q6
        let hu ← pyFloat q7
        let al ← pyFloat q8
        some ⟨ax, ay, az, la, lo, te, pr, hu, al, pyUpper (pyStrip q9)⟩
      | _ => none

/-- Function `parse_csv_string` from `additionals/deploymentDashboard.py`
(lines 20-45).  After the exact-10-field arity check the success branch
reads `float(parts[8])` for humidity, `float(parts[9])` for altitude and
`parts[10].strip().upper()` for the phase; `parts[10]` does not exist in a
10-field line, so the `IndexError` is caught and the function returns
`None`.  Out-of-range indexing is modelled by `List.get?`. -/
def parse_csv_string_deployment (csv_string : String) : Option Reading :=
  let parts := splitCommas (pyStrip csv_string)
  match parts with
  | [] => none
  | p0 :: _ =>
    if pyLower p0 = "accel_x" then none
    else
      match parts with
      | [q0, q1, q2, q3, q4, q5, q6, q7, q8, q9] => do
        let ax ← pyFloat q0
        let ay ← pyFloat q1
        let az ← pyFloat q2
        let la ← pyFloat q3
        let lo ← pyFloat q4
        let te ← pyFloat q5
        let pr ← pyFloat q6
        let hu ← pyFloat q8
        let al ← pyFloat q9
        let ph ← [q0, q1, q2, q3, q4, q5, q6, q7, q8, q9].get? 10
        some ⟨ax, ay, az, la, lo, te, pr, hu, al, pyUpper (pyStrip ph)⟩
      | _ => none

/-! ## Board aggregator (`SharedDataStore` in `unifiedDashboard.py`)

The Python store holds, per board id, parallel lists of samples plus two
sticky deploy booleans, and a separate `deployment_history` map with the
same two booleans.  Timestamps (`elapsed_seconds`, wall-clock) are passed
in as an explicit parameter `now`.  The `lock` field only serialises
threads and has no sequential semantics. -/

/-- Per-board accumulated data (`init_board_data` dict). -/
structure BoardData where
  x : List ℚ
  y : List ℚ
  z : List ℚ
  lat : List ℚ
  lon : List ℚ
  temperature : List ℚ
  pressure : List ℚ
  humidity : List ℚ
  alt : List ℚ
  phase : List String
  time : List ℚ
  main_deploy : Bool
  second_deploy : Bool

/-- Method `SharedDataStore.init_board_data`. -/
def init_board_data : BoardData :=
  ⟨[], [], [], [], [], [], [], [], [], [], [], false, false⟩

/-- One entry of `SharedDataStore.deployment_history`. -/
structure DeployFlags where
  main_deployed : Bool
  second_deployed : Bool

/-- The mutable maps of `SharedDataStore` (board id → data). -/
structure SharedDataStore where
  board_list : String → Option BoardData
  deployment_history : String → Option DeployFlags

/-- The store at process start: both maps empty. -/
def empty_store : SharedDataStore :=
  ⟨fun _ => none, fun _ => none⟩

/-- Method `SharedDataStore.update_board_data` (`unifiedDashboard.py` lines
41-87): lazily initialise the board, upper-case the raw phase, set the
sticky deploy flags by substring matching and remap the display phase to
`"DESCENT"`, then append every field.  `now` stands for
`elapsed_seconds()`. -/
def update_board_data (st : SharedDataStore) (board_id : String)
    (parsed_data : Reading) (now : ℚ) : SharedDataStore :=
  let bd := (st.board_list board_id).getD init_board_data
  let dh := (st.deployment_history board_id).getD ⟨false, false⟩
  let phase := pyUpper parsed_data.phase
  let step :=
    if strContains phase "MAIN" && strContains phase "DEPLOY" then
      ({ dh with main_deployed := true },
       { bd with main_deploy := true }, "DESCENT")
    else if strContains phase "SECOND" && strContains phase "DEPLOY" then
      ({ dh with second_deployed := true },
       { bd with second_deploy := true }, "DESCENT")
    else
      (dh, bd, phase)
  let dh2 := step.1
  let bd2 := step.2.1
  let display_phase := step.2.2
  let bd3 : BoardData :=
    { bd2 with
      x := bd2.x ++ [parsed_data.accel_x]
      y := bd2.y ++ [parsed_data.accel_y]
      z := bd2.z ++ [parsed_data.accel_z]
      lat := bd2.lat ++ [parsed_data.lat]
      lon := bd2.lon ++ [parsed_data.lon]
      temperature := bd2.temperature ++ [parsed_data.temp]
      pressure := bd2.pressure ++ [parsed_data.pressure]
      humidity := bd2.humidity ++ [parsed_data.humidity]
      alt := bd2.alt ++ [parsed_data.alt]
      phase := bd2.phase ++ [display_phase]
      time := bd2.time ++ [now] }
  { board_list := fun b => if b = board_id then some bd3 else st.board_list b
    deployment_history :=
      fun b => if b = board_id then some dh2 else st.deployment_history b }

/-- Result of `SharedDataStore.get_board_status` (the name and
`last_seen` wall-clock fields are omitted: both are read from ambient
configuration/time, not from the telemetry state). -/
structure BoardStatus where
  phase : String
  main_deployed : Bool
  second_deployed : Bool
  altitude : ℚ

/-- Method `SharedDataStore.get_board_status` (`unifiedDashboard.py` lines
89-101): `None` when the board is unknown or has no altitude samples;
otherwise the latest display phase together with the sticky flags. -/
def get_board_status (st : SharedDataStore) (board_id : String) :
    Option BoardStatus :=
  match st.board_list board_id with
  | none => none
  | some b =>
    if b.alt.isEmpty then none
    else
      some ⟨b.phase.getLastD "UNKNOWN", b.main_deploy, b.second_deploy,
            b.alt.getLastD 0⟩

/-- Ingest of a whole `(board_id, reading, timestamp)` sequence, in order
(the serial fetcher loop feeding `update_board_data`). -/
def ingest_list (st : SharedDataStore)
    (ups : List (String × Reading × ℚ)) : SharedDataStore :=
  ups.foldl (fun s u => update_board_data s u.1 u.2.1 u.2.2) st

/-- The sticky `main_deploy` flag of one board (false while unseen). -/
def mainFlag (st : SharedDataStore) (b : String) : Bool :=
  ((st.board_list b).getD init_board_data).main_deploy

/-- The sticky `second_deploy` flag of one board (false while unseen). -/
def secondFlag (st : SharedDataStore) (b : String) : Bool :=
  ((st.board_list b).getD init_board_data).second_deploy

/-- The sticky `main_deployed` flag in `deployment_history`. -/
def mainHist (st : SharedDataStore) (b : String) : Bool :=
  ((st.deployment_history b).getD ⟨false, false⟩).main_deployed

/-- The sticky `second_deployed` flag in `deployment_history`. -/
def secondHist (st : SharedDataStore) (b : String) : Bool :=
  ((st.deployment_history b).getD ⟨false, false⟩).second_deployed

/-- A reading whose only relevant content is its phase string (all numeric
fields zero), used for ingest sequences driven by phase. -/
def phaseReading (p : String) : Reading :=
  ⟨0, 0, 0, 0, 0, 0, 0, 0, 0, p⟩

/-- The concrete four-phase ingest sequence of the claim, on board
`"0"`. -/
def stickySeq : List (String × Reading × ℚ) :=
  [("0", phaseReading "RISING", 0), ("0", phaseReading "MAIN DEPLOY", 1),
   ("0", phaseReading "COASTING", 2), ("0", phaseReading "GROUND", 3)]

/-! ## Scoring engine (`ground_update_charts` in `unifiedDashboard.py`)

The status-board row computation, lines 384-447.  All arithmetic is exact
rational arithmetic; the `f"{x:.1f}"` / `f"{total:.2f}"` string
formatting round-trips are modelled by exact decimal rounding (`round1`,
`fmt2`); Python's round-half-even at exact ties is modelled as
round-half-up, and no theorem below evaluates at a tie. -/

/-- Apogee score from lines 420-422: `ratio = (max_alt - pred)/pred`,
`index_score_pct = 100 * (1/(1+ratio**2))`,
`apogee_score = (index_score_pct/100) * 15`. -/
def apogee_score (max_alt stored_prediction : ℚ) : ℚ :=
  let ratio := (max_alt - stored_prediction) / stored_prediction
  let index_score_pct := 100 * (1 / (1 + ratio ^ 2))
  (index_score_pct / 100) * 15

/-- The apogee score as a function of the ratio alone. -/
def apogeeOfRatio (r : ℚ) : ℚ :=
  15 * (1 / (1 + r ^ 2))

/-- Distance score from lines 426-432: `0` beyond 500 m, otherwise
`((1 - dist/500) * 100 / 100) * 7.5`. -/
def distance_score (dist_val : ℚ) : ℚ :=
  if dist_val ≤ 500 then ((1 - dist_val / 500) * 100 / 100) * 7.5 else 0

/-- One-decimal rounding, modelling the `f"{dist_val:.1f}"` format and
`float()` re-parse the code performs on the computed distance. -/
def round1 (q : ℚ) : ℚ :=
  (⌊q * 10 + 1 / 2⌋ : ℤ) / 10

/-- Two-decimal fixed-point rendering of a nonnegative score, modelling
`f"{x:.2f}"`. -/
def fmt2 (q : ℚ) : String :=
  let n := (⌊q * 100 + 1 / 2⌋ : ℤ).toNat
  let r := n % 100
  toString (n / 100) ++ "." ++ (if r < 10 then "0" else "") ++ toString r

/-- Python truthiness of `stored_prediction` (`if stored_prediction:`):
false for `None` and for a saved value of `0`. -/
def truthy (p : Option ℚ) : Bool :=
  match p with
  | none => false
  | some v => v != 0

/-- The `"predicted"` cell of a status row: the literal `"Not set"`, or a
saved value rendered as `f"{value}m"` (rendering of the number itself is
kept abstract as the rational value). -/
inductive PredCell where
  | notSet : PredCell
  | ofVal : ℚ → PredCell
  deriving Repr, DecidableEq

/-- One status-board row (the fields relevant to scoring).  In the source
the `"score"` cell is ALWAYS the string `f"{total_score:.2f}/22.5"`;
`score_str` reproduces it.  `apogee_diff` and `distance` are `none`
exactly when the source renders the literal `"N/A"`. -/
structure StatusRow where
  predicted : PredCell
  apogee_diff : Option ℚ
  distance : Option ℚ
  apogee_sc : ℚ
  distance_sc : ℚ
  total_score : ℚ
  score_str : String

/-- The scoring part of one row of `ground_update_charts` (lines
396-447).  `dist0` is the planar displacement between the board's first
and last recorded position, computed in the source by `latlon_to_xy`
followed by `math.sqrt`; those use transcendental `cos`/`sqrt`, so the
resulting value is taken here as an input.  It is `none` exactly when the
board has no position samples (`bdata["lat"]`/`bdata["lon"]` empty); a
board with a single sample compares its first point with itself and gets
`some 0`. -/
def ground_status_row (dist0 : Option ℚ) (max_alt : ℚ)
    (stored_prediction : Option ℚ) : StatusRow :=
  let predicted : PredCell :=
    if truthy stored_prediction then PredCell.ofVal (stored_prediction.getD 0)
    else PredCell.notSet
  let apogee_diff : Option ℚ :=
    if truthy stored_prediction then
      some (max_alt - stored_prediction.getD 0)
    else none
  let distance_m : Option ℚ := dist0.map round1
  let apogee_sc : ℚ :=
    if truthy stored_prediction then
      apogee_score max_alt (stored_prediction.getD 0)
    else 0
  let distance_sc : ℚ :=
    match distance_m with
    | some dv => distance_score dv
    | none => 0
  let total := apogee_sc + distance_sc
  ⟨predicted, apogee_diff, distance_m, apogee_sc, distance_sc, total,
   fmt2 total ++ "/22.5"⟩

/-! ## Latitude/longitude clamp (`SampleDataGenerator.clamp_lat_lon`)

`ws_server.py` lines 41-45 / `wss_server.py` lines 159-162:
`lat = max(min(lat, 90.0), -90.0)`, `lon = ((lon + 180.0) % 360.0) - 180.0`.
Python `%` with a positive modulus is floor-based. -/

/-- Python float `%` for a positive modulus: `x - y * floor (x / y)`. -/
def pymod (x y : ℚ) : ℚ :=
  x - y * (⌊x / y⌋ : ℤ)

/-- Method `SampleDataGenerator.clamp_lat_lon`. -/
def clamp_lat_lon (lat lon : ℚ) : ℚ × ℚ :=
  (max (min lat 90) (-90), pymod (lon + 180) 360 - 180)

/-! ## Flight simulator (`SampleDataGenerator.generate_rocket_flight_data`)

`ws_server.py` lines 47-181 and `wss_server.py` lines 164-272 (identical
phase logic; the `ws` variant additionally tracks a `speed` field).  The
phase decision depends only on the deterministic part of the per-device
state: the starting altitude `alt`, the launch stagger `time_offset`, and
the trigger/landed flags — none of the per-call `random.uniform` noise
reaches a branch condition (the branch-local `alt` used for the second
deploy and landing checks is the noise-free formula; noise is only added
to the returned reading afterwards).  Sensor-value fields (`lat`, `lon`,
`temp`, `pressure`, `humidity`, `prev_alt`, `prev_time`) are therefore
omitted from the state: nothing in the phase logic reads them. -/

/-- The six phase tokens emitted by the generator (emitted as the strings
`"GROUND"`, `"RISING"`, `"COASTING"`, `"MAIN DEPLOY"`, `"SECOND DEPLOY"`,
`"LANDED"`). -/
inductive FlightPhase where
  | GROUND : FlightPhase
  | RISING : FlightPhase
  | COASTING : FlightPhase
  | MAIN_DEPLOY : FlightPhase
  | SECOND_DEPLOY : FlightPhase
  | LANDED : FlightPhase
  deriving Repr, DecidableEq

/-- Position of a phase in the canonical flight ordering. -/
def phaseIdx : FlightPhase → ℕ
  | FlightPhase.GROUND => 0
  | FlightPhase.RISING => 1
  | FlightPhase.COASTING => 2
  | FlightPhase.MAIN_DEPLOY => 3
  | FlightPhase.SECOND_DEPLOY => 4
  | FlightPhase.LANDED => 5

/-- Deterministic part of one entry of `device_states`. -/
structure SimState where
  alt : ℚ
  time_offset : ℚ
  main_deploy_triggered : Bool
  second_deploy_triggered : Bool
  max_altitude_reached : ℚ
  has_launched : Bool
  has_landed : Bool
  launch_time : Option ℚ
  landing_time : Option ℚ

/-- Fresh per-device state (`device_states[i]` at initialisation):
`alt` is drawn from `[0, 50]` and `time_offset` from `[0, 15]`; all
flags start false. -/
def initSimState (alt time_offset : ℚ) : SimState :=
  ⟨alt, time_offset, false, false, 0, false, false, none, none⟩

/-- One call of `generate_rocket_flight_data`: the updated device state
and the phase of the returned reading. -/
def simStep (s : SimState) (elapsed_time : ℚ) : SimState × FlightPhase :=
  let flight_time := elapsed_time - s.time_offset
  if flight_time < 0 then
    (s, FlightPhase.GROUND)
  else if flight_time < 10 ∧ s.has_landed = false then
    (if s.has_launched = false then
       { s with has_launched := true, launch_time := some elapsed_time }
     else s,
     FlightPhase.RISING)
  else if flight_time < 30 ∧ s.has_landed = false then
    (s, FlightPhase.COASTING)
  else if flight_time < 35 ∧ s.has_landed = false then
    let t_apogee := flight_time - 30
    let max_alt := s.alt + 500 + 20 * 25 - 20 ^ 2 * (0.3 : ℚ)
    let alt := max_alt - t_apogee ^ 2 * 2
    ({ s with
       main_deploy_triggered := true
       max_altitude_reached :=
         if alt > s.max_altitude_reached then alt
         else s.max_altitude_reached },
     FlightPhase.MAIN_DEPLOY)
  else if s.has_landed = false then
    let t_descent := flight_time - 35
    let max_alt := s.alt + 500 + 20 * 25 - 20 ^ 2 * (0.3 : ℚ)
    let alt := max s.alt (max_alt - 50 - t_descent ^ 2 * 3)
    let trig :=
      if alt ≤ 150 ∧ s.second_deploy_triggered = false then
        (true, FlightPhase.SECOND_DEPLOY)
      else if s.second_deploy_triggered = true then
        (s.second_deploy_triggered, FlightPhase.SECOND_DEPLOY)
      else
        (s.second_deploy_triggered, FlightPhase.MAIN_DEPLOY)
    let s2 := { s with second_deploy_triggered := trig.1 }
    let s3 :=
      if alt ≤ s.alt + 10 ∧ t_descent > 10 then
        { s2 with has_landed := true, landing_time := some elapsed_time }
      else s2
    (s3, trig.2)
  else
    (s, FlightPhase.LANDED)

/-- Phase sequence produced by calling the generator at each time of a
list, threading the mutated device state. -/
def runPhases (s : SimState) : List ℚ → List FlightPhase
  | [] => []
  | t :: ts => (simStep s t).2 :: runPhases (simStep s t).1 ts

/-- The invariant carried along a run: whenever the device has landed,
the landing happened strictly more than 45 s of flight time ago relative
to the launch stagger, i.e. the current call time `t` satisfies
`time_offset + 45 < t` (the landing check requires `t_descent > 10`,
hence `flight_time > 45`). -/
def InvAt (s : SimState) (t : ℚ) : Prop :=
  s.has_landed = true → s.time_offset + 45 < t

/-- Value of `fmt2` at `0`. -/
lemma fmt2_zero : fmt2 0 = "0.00" := by
  have h : (⌊(0 : ℚ) * 100 + 1 / 2⌋ : ℤ) = 0 := by norm_num
  unfold fmt2
  rw [h]
  rfl

/-- Value of `fmt2` at `7.5`. -/
lemma fmt2_seven_point_five : fmt2 7.5 = "7.50" := by
  have h : (⌊(7.5 : ℚ) * 100 + 1 / 2⌋ : ℤ) = 750 := by norm_num
  unfold fmt2
  rw [h]
  rfl

/-- C7 counterexample: the unified status board does NOT report the total
score as "not set" when no prediction is saved — the `"score"` cell is
always the numeric string `f"{total_score:.2f}/22.5"`.  A board whose
landing displacement is 600 m and that has no saved prediction renders
`predicted = "Not set"` but `score = "0.00/22.5"` — a rendered zero
standing for an absent prediction; a board with a single position sample
(displacement 0) and no prediction renders `score = "7.50/22.5"`. -/
theorem C7_counterexample_numeric_score_without_prediction :
    (ground_status_row (some 600) 100 none).predicted = PredCell.notSet ∧
    (ground_status_row (some 600) 100 none).score_str = "0.00/22.5" ∧
    (ground_status_row (some 600) 100 none).score_str ≠ "Not set" ∧
    (ground_status_row (some 0) 100 none).score_str = "7.50/22.5" := by
  have h600 : round1 600 = 600 := by
    unfold round1
    norm_num
  have h0 : round1 0 = 0 := by
    unfold round1
    norm_num
  have hds600 : distance_score 600 = 0 := by
    unfold distance_score
    norm_num
  have hds0 : distance_score 0 = 7.5 := by
    unfold distance_score
    norm_num
  refine ⟨?_, ?_, ?_, ?_⟩
  · simp [ground_status_row, truthy]
  · simp [ground_status_row, truthy, h600, hds600, fmt2_zero]
  · simp [ground_status_row, truthy, h600, hds600, fmt2_zero]
  · simp [ground_status_row, truthy, h0, hds0, fmt2_seven_point_five]

/-- C7 (amended): when no prediction is saved for a board, the
`"predicted"` cell renders `"Not set"` and the `"apogee_diff"` cell
`"N/A"`, and the apogee component of the score is silently `0` — but the
`"score"` cell still renders the numeric total (the distance component
alone, computed even from a single position sample) rather than an
unavailable marker. -/
theorem C7_score_rendering_amended :
    ∀ (dist0 : Option ℚ) (max_alt : ℚ),
      (ground_status_row dist0 max_alt none).predicted = PredCell.notSet ∧
      (ground_status_row dist0 max_alt none).apogee_diff = none ∧
      (ground_status_row dist0 max_alt none).apogee_sc = 0 ∧
      (ground_status_row dist0 max_alt none).total_score
        = (ground_status_row dist0 max_alt none).distance_sc ∧
      (ground_status_row dist0 max_alt none).score_str
        = fmt2 ((ground_status_row dist0 max_alt none).distance_sc)
            ++ "/22.5" := by
  intro dist0 max_alt
  refine ⟨?_, ?_, ?_, ?_, ?_⟩ <;> simp [ground_status_row, truthy]

/-! ## Theorems -/

/-- Calling `generate_rocket_flight_data` never changes `time_offset`. -/
lemma simStep_offset (s : SimState) (t : ℚ) :
    (simStep s t).1.time_offset = s.time_offset := by
  simp only [simStep]
  split_ifs <;> rfl

/-- Flag `has_landed` is never cleared by a step. -/
lemma simStep_landed_mono (s : SimState) (t : ℚ) (h : s.has_landed = true) :
    (simStep s t).1.has_landed = true := by
  simp only [simStep]
  split_ifs <;> simp [h]

/-- If a step reports the device landed, either it was landed before or
the landing was just declared, which requires `t_descent > 10`, i.e.
`time_offset + 45 < t`. -/
lemma simStep_landed_src (s : SimState) (t : ℚ)
    (h : (simStep s t).1.has_landed = true) :
    s.has_landed = true ∨ s.time_offset + 45 < t := by
  by_cases hl : s.has_landed = true
  · exact Or.inl hl
  · right
    simp only [simStep] at h
    split_ifs at h
    all_goals simp_all
    all_goals linarith

/-- The invariant is preserved by a step and by moving to a later
time. -/
lemma invAt_step (s : SimState) (t t2 : ℚ) (hI : InvAt s t) (h : t ≤ t2) :
    InvAt (simStep s t).1 t2 := by
  intro hl
  rw [simStep_offset]
  rcases simStep_landed_src s t hl with hold | hnew
  · exact lt_of_lt_of_le (hI hold) h
  · exact lt_of_lt_of_le hnew h

/-- Once `flight_time ≥ 0` the generator never reports `GROUND`. -/
lemma simStep_idx_ge_one (s : SimState) (t : ℚ)
    (h : 0 ≤ t - s.time_offset) : 1 ≤ phaseIdx (simStep s t).2 := by
  simp only [simStep]
  split_ifs <;> simp [phaseIdx]
  all_goals linarith

/-- Once `flight_time ≥ 10` the phase index is at least `COASTING`. -/
lemma simStep_idx_ge_two (s : SimState) (t : ℚ)
    (h : 10 ≤ t - s.time_offset) : 2 ≤ phaseIdx (simStep s t).2 := by
  simp only [simStep]
  split_ifs <;> simp [phaseIdx]
  all_goals linarith

/-- Once `flight_time ≥ 30` the phase index is at least `MAIN_DEPLOY`. -/
lemma simStep_idx_ge_three (s : SimState) (t : ℚ)
    (h : 30 ≤ t - s.time_offset) : 3 ≤ phaseIdx (simStep s t).2 := by
  simp only [simStep]
  split_ifs <;> simp [phaseIdx]
  all_goals linarith

/-- Once `flight_time ≥ 35` and the second-deploy trigger is set, the
phase index is at least `SECOND_DEPLOY`. -/
lemma simStep_idx_ge_four (s : SimState) (t : ℚ)
    (h : 35 ≤ t - s.time_offset) (htr : s.second_deploy_triggered = true) :
    4 ≤ phaseIdx (simStep s t).2 := by
  simp only [simStep]
  split_ifs <;> simp_all [phaseIdx]
  all_goals linarith

/-- A landed device with `flight_time ≥ 0` reports `LANDED`. -/
lemma simStep_idx_landed (s : SimState) (t : ℚ)
    (h : 0 ≤ t - s.time_offset) (hl : s.has_landed = true) :
    phaseIdx (simStep s t).2 = 5 := by
  simp only [simStep]
  split_ifs <;> simp_all [phaseIdx]
  all_goals linarith

/-- One generator call never regresses the phase of the next call, for
non-decreasing elapsed times. -/
lemma simStep_idx_mono (s : SimState) (t t2 : ℚ) (hI : InvAt s t)
    (h : t ≤ t2) :
    phaseIdx (simStep s t).2 ≤ phaseIdx (simStep (simStep s t).1 t2).2 := by
  rcases hstep : simStep s t with ⟨s1, ph⟩
  dsimp only
  have hoff : s1.time_offset = s.time_offset := by
    have hh := simStep_offset s t
    rw [hstep] at hh
    exact hh
  simp only [simStep] at hstep
  split_ifs at hstep with h1 h2 h3 h4 h5 h6 h7 h8 h9 h10 h11 h12
  all_goals injection hstep with hs hp
  all_goals subst hp
  -- GROUND
  · simp [phaseIdx]
  -- RISING, first launch
  · have := simStep_idx_ge_one s1 t2 (by rw [hoff]; linarith)
    simpa [phaseIdx] using this
  -- RISING, already launched
  · have := simStep_idx_ge_one s1 t2 (by rw [hoff]; linarith)
    simpa [phaseIdx] using this
  -- COASTING
  · have hge : ¬ (t - s.time_offset < 10) := fun hf => h2 ⟨hf, h4.2⟩
    have := simStep_idx_ge_two s1 t2 (by rw [hoff]; linarith)
    simpa [phaseIdx] using this
  -- MAIN DEPLOY apogee, new max altitude
  · have hge : ¬ (t - s.time_offset < 30) := fun hf => h4 ⟨hf, h5.2⟩
    have := simStep_idx_ge_three s1 t2 (by rw [hoff]; linarith)
    simpa [phaseIdx] using this
  -- MAIN DEPLOY apogee, max altitude unchanged
  · have hge : ¬ (t - s.time_offset < 30) := fun hf => h4 ⟨hf, h5.2⟩
    have := simStep_idx_ge_three s1 t2 (by rw [hoff]; linarith)
    simpa [phaseIdx] using this
  -- Descent, landing declared, second deploy newly triggered
  · have hge : ¬ (t - s.time_offset < 35) := fun hf => h5 ⟨hf, h7⟩
    have hl1 : s1.has_landed = true := by rw [← hs]
    have hfive := simStep_idx_landed s1 t2 (by rw [hoff]; linarith) hl1
    rw [hfive]
    simp [phaseIdx]
  -- Descent, landing declared, trigger already set
  · have hge : ¬ (t - s.time_offset < 35) := fun hf => h5 ⟨hf, h7⟩
    have hl1 : s1.has_landed = true := by rw [← hs]
    have hfive := simStep_idx_landed s1 t2 (by rw [hoff]; linarith) hl1
    rw [hfive]
    simp [phaseIdx]
  -- Descent, landing declared, no trigger (MAIN DEPLOY output)
  · have hge : ¬ (t - s.time_offset < 35) := fun hf => h5 ⟨hf, h7⟩
    have hl1 : s1.has_landed = true := by rw [← hs]
    have hfive := simStep_idx_landed s1 t2 (by rw [hoff]; linarith) hl1
    rw [hfive]
    simp [phaseIdx]
  -- Descent, still airborne, second deploy newly triggered
  · have hge : ¬ (t - s.time_offset < 35) := fun hf => h5 ⟨hf, h7⟩
    have htr : s1.second_deploy_triggered = true := by rw [← hs]
    have := simStep_idx_ge_four s1 t2 (by rw [hoff]; linarith) htr
    simpa [phaseIdx] using this
  -- Descent, still airborne, trigger already set
  · have hge : ¬ (t - s.time_offset < 35) := fun hf => h5 ⟨hf, h7⟩
    have htr : s1.second_deploy_triggered = true := by
      rw [← hs]
      exact h12
    have := simStep_idx_ge_four s1 t2 (by rw [hoff]; linarith) htr
    simpa [phaseIdx] using this
  -- Descent, still airborne, no trigger (MAIN DEPLOY continues)
  · have hge : ¬ (t - s.time_offset < 35) := fun hf => h5 ⟨hf, h7⟩
    have := simStep_idx_ge_three s1 t2 (by rw [hoff]; linarith)
    simpa [phaseIdx] using this
  -- LANDED
  · have hl : s.has_landed = true := by
      by_contra hc
      exact h7 (by simpa using hc)
    have hinv := hI hl
    have hl1 : s1.has_landed = true := by
      rw [← hs]
      exact hl
    have hfive := simStep_idx_landed s1 t2 (by rw [hoff]; linarith) hl1
    rw [hfive]
    simp [phaseIdx]


/-- Along any run at non-decreasing call times the produced phase indices
form a `≤`-chain. -/
lemma runPhases_chain (ts : List ℚ) :
    ∀ (s : SimState) (t0 : ℚ), InvAt s t0 →
      List.Chain (· ≤ ·) t0 ts →
      ((runPhases s ts).map phaseIdx).Chain' (· ≤ ·) := by
  induction ts with
  | nil =>
    intro s t0 _ _
    simp [runPhases]
  | cons t ts2 ih =>
    intro s t0 hI hch
    rcases hch with _ | ⟨ht0, hch2⟩
    have hIt : InvAt s t := fun hl => lt_of_lt_of_le (hI hl) ht0
    have hInext : InvAt (simStep s t).1 t := invAt_step s t t hIt le_rfl
    have hrec := ih (simStep s t).1 t hInext hch2
    cases ts2 with
    | nil => simp [runPhases]
    | cons t2 ts3 =>
      have hle : t ≤ t2 := by
        rcases hch2 with _ | ⟨hh, _⟩
        exact hh
      have hmono := simStep_idx_mono s t t2 hIt hle
      have hshape :
          (runPhases s (t :: t2 :: ts3)).map phaseIdx
            = phaseIdx (simStep s t).2 ::
              (runPhases (simStep s t).1 (t2 :: ts3)).map phaseIdx := rfl
      rw [hshape]
      rcases hrl : (runPhases (simStep s t).1 (t2 :: ts3)).map phaseIdx
        with _ | ⟨i2, irest⟩
      · exact List.chain'_singleton _
      · have hhead : i2 = phaseIdx (simStep (simStep s t).1 t2).2 := by
          have : (runPhases (simStep s t).1 (t2 :: ts3)).map phaseIdx
              = phaseIdx (simStep (simStep s t).1 t2).2 ::
                (runPhases (simStep (simStep s t).1 t2).1 ts3).map phaseIdx :=
            rfl
          rw [this] at hrl
          exact (List.cons.injEq _ _ _ _).mp hrl |>.1.symm
        rw [List.chain'_cons]
        refine ⟨?_, ?_⟩
        · rw [hhead]
          exact hmono
        · rw [← hrl]
          exact hrec

/-- C8: for every per-board initial randomness (base altitude and launch
stagger) and every non-decreasing sequence of elapsed times, the phase
sequence produced by `generate_rocket_flight_data` is monotone through
the canonical ordering GROUND → RISING → COASTING → MAIN_DEPLOY →
SECOND_DEPLOY → LANDED: every later sample's phase index is greater than
or equal to every earlier one's (no phase regressions, single flight, no
re-launch).  This covers any fixed random seed, in particular the grid
`t = 0, 0.5, …, 40.0`. -/
theorem C8_phase_sequence_monotone :
    ∀ (alt time_offset : ℚ) (ts : List ℚ),
      ts.Chain' (· ≤ ·) →
      ((runPhases (initSimState alt time_offset) ts).map phaseIdx).Pairwise
        (· ≤ ·) := by
  intro alt off ts hch
  cases ts with
  | nil => simp [runPhases]
  | cons t ts2 =>
    have hc : List.Chain (· ≤ ·) t (t :: ts2) :=
      List.Chain.cons le_rfl hch
    have hI : InvAt (initSimState alt off) t := by
      intro hl
      simp [initSimState] at hl
    have := runPhases_chain (t :: ts2) (initSimState alt off) t hI hc
    exact List.chain'_iff_pairwise.mp this

/-- C8 witness: the theorem applied to a concrete board (base altitude 20,
stagger 5) on the chain of times `[0, 1]`. -/
theorem C8_phase_sequence_monotone_witness :
    List.Chain' (· ≤ ·) [(0 : ℚ), 1] ∧
    ((runPhases (initSimState 20 5) [(0 : ℚ), 1]).map phaseIdx).Pairwise
      (· ≤ ·) := by
  have hch : List.Chain' (· ≤ ·) [(0 : ℚ), 1] := by
    simp [List.chain'_cons]
  exact ⟨hch, C8_phase_sequence_monotone 20 5 [0, 1] hch⟩

/-- Bounds of the floor-based `%` used by `clamp_lat_lon`. -/
lemma pymod_360_bounds (x : ℚ) : 0 ≤ pymod x 360 ∧ pymod x 360 < 360 := by
  unfold pymod
  have h1 : ((⌊x / 360⌋ : ℤ) : ℚ) ≤ x / 360 := Int.floor_le _
  have h2 : x / 360 < (⌊x / 360⌋ : ℤ) + 1 := Int.lt_floor_add_one _
  have e : x / 360 * 360 = x := by
    field_simp
  constructor
  · nlinarith [h1, h2]
  · nlinarith [h1, h2]

/-- C9: `clamp_lat_lon` returns a latitude in `[-90, 90]` and a longitude
normalized into `[-180, 180)` for every input; in particular an input
longitude of `190` normalizes to `-170`. -/
theorem C9_clamp_lat_lon_ranges :
    (∀ lat lon : ℚ,
        -90 ≤ (clamp_lat_lon lat lon).1 ∧ (clamp_lat_lon lat lon).1 ≤ 90 ∧
        -180 ≤ (clamp_lat_lon lat lon).2 ∧ (clamp_lat_lon lat lon).2 < 180) ∧
    (clamp_lat_lon 30 190).2 = -170 := by
  constructor
  · intro lat lon
    have hm := pymod_360_bounds (lon + 180)
    refine ⟨le_max_right _ _, max_le (min_le_right _ _) (by norm_num), ?_, ?_⟩
    · simp only [clamp_lat_lon]
      linarith [hm.1]
    · simp only [clamp_lat_lon]
      linarith [hm.2]
  · have hf : ⌊((190 : ℚ) + 180) / 360⌋ = 1 := by
      rw [Int.floor_eq_iff]
      norm_num
    simp only [clamp_lat_lon, pymod, hf]
    norm_num

/-- C2: the apogee score computed by `ground_update_charts` equals
`15 / (1 + ratio²)`, lies in `(0, 15]`, is maximal exactly at ratio `0`
(`15.0` for a 1000 m prediction met exactly), is strictly decreasing in
`|ratio|`, and evaluates to exactly `12` for `max_alt = 1500`,
`predicted = 1000`. -/
theorem C2_apogee_score_formula :
    (∀ max_alt pa : ℚ, 0 < pa →
        apogee_score max_alt pa
          = 15 * (1 / (1 + ((max_alt - pa) / pa) ^ 2)) ∧
        0 < apogee_score max_alt pa ∧ apogee_score max_alt pa ≤ 15) ∧
    (∀ max_alt pa : ℚ, 0 < pa →
        apogee_score max_alt pa = apogeeOfRatio ((max_alt - pa) / pa)) ∧
    apogee_score 1000 1000 = 15 ∧
    (∀ r1 r2 : ℚ, |r1| < |r2| → apogeeOfRatio r2 < apogeeOfRatio r1) ∧
    apogee_score 1500 1000 = 12 := by
  have key : ∀ max_alt pa : ℚ,
      apogee_score max_alt pa
        = 15 * (1 / (1 + ((max_alt - pa) / pa) ^ 2)) := by
    intro max_alt pa
    unfold apogee_score
    ring
  have pos : ∀ r : ℚ, (0 : ℚ) < 1 + r ^ 2 := by
    intro r
    nlinarith [sq_nonneg r]
  refine ⟨?_, ?_, by norm_num [apogee_score], ?_, by norm_num [apogee_score]⟩
  · intro max_alt pa _
    set r := (max_alt - pa) / pa with hr
    refine ⟨key max_alt pa, ?_, ?_⟩
    · rw [key max_alt pa, ← hr]
      have := pos r
      positivity
    · rw [key max_alt pa, ← hr]
      have h1 : (1 : ℚ) ≤ 1 + r ^ 2 := by nlinarith [sq_nonneg r]
      have h2 : 1 / (1 + r ^ 2) ≤ 1 :=
        le_trans (one_div_le_one_div_of_le one_pos h1) (by norm_num)
      linarith
  · intro max_alt pa _
    rw [key max_alt pa]
    rfl
  · intro r1 r2 h
    unfold apogeeOfRatio
    have hsq : r1 ^ 2 < r2 ^ 2 := by
      have := abs_nonneg r1
      calc r1 ^ 2 = |r1| ^ 2 := (sq_abs r1).symm
        _ < |r2| ^ 2 := by nlinarith [abs_nonneg r1, abs_nonneg r2]
        _ = r2 ^ 2 := sq_abs r2
    have hlt : 1 + r1 ^ 2 < 1 + r2 ^ 2 := by linarith
    have hdiv : 1 / (1 + r2 ^ 2) < 1 / (1 + r1 ^ 2) :=
      one_div_lt_one_div_of_lt (pos r1) hlt
    linarith

/-- C2 witness: the theorem instantiated at `max_alt = 1500`,
`predicted = 1000` and at ratios `0 < 1`. -/
theorem C2_apogee_score_formula_witness :
    (0 : ℚ) < 1000 ∧
    apogee_score 1500 1000 = 15 * (1 / (1 + ((1500 - 1000) / 1000) ^ 2)) ∧
    |(0 : ℚ)| < |(1 : ℚ)| ∧ apogeeOfRatio 1 < apogeeOfRatio 0 :=
  ⟨by norm_num,
   (C2_apogee_score_formula.1 1500 1000 (by norm_num)).1,
   by decide,
   C2_apogee_score_formula.2.2.2.1 0 1 (by decide)⟩

/-- C3: the distance score computed by `ground_update_charts` equals
`7.5 × max(0, 1 − d/500)` for every nonnegative distance: `7.5` at `0`,
`0` at `500`, clamped to `0` (never negative) beyond `500` (e.g. `600`),
and linear on `[0, 500]`. -/
theorem C3_distance_score_formula :
    (∀ d : ℚ, 0 ≤ d → distance_score d = 7.5 * max 0 (1 - d / 500)) ∧
    distance_score 0 = 7.5 ∧
    distance_score 500 = 0 ∧
    distance_score 600 = 0 ∧
    (∀ d : ℚ, 0 ≤ d → d ≤ 500 → distance_score d = 7.5 - (7.5 / 500) * d) := by
  refine ⟨?_, by norm_num [distance_score], by norm_num [distance_score], by norm_num [distance_score], ?_⟩
  · intro d _
    unfold distance_score
    by_cases h : d ≤ 500
    · rw [if_pos h]
      have hnn : (0 : ℚ) ≤ 1 - d / 500 := by
        have : d / 500 ≤ 1 := by
          rw [div_le_one (by norm_num : (0 : ℚ) < 500)]
          exact h
        linarith
      rw [max_eq_right hnn]
      ring
    · rw [if_neg h]
      push_neg at h
      have hneg : 1 - d / 500 ≤ 0 := by
        have : (1 : ℚ) ≤ d / 500 := by
          rw [le_div_iff₀ (by norm_num : (0 : ℚ) < 500)]
          linarith
        linarith
      rw [max_eq_left hneg]
      ring
  · intro d _ hle
    unfold distance_score
    rw [if_pos hle]
    ring

/-- C3 witness: the theorem instantiated at `d = 100`. -/
theorem C3_distance_score_formula_witness :
    (0 : ℚ) ≤ 100 ∧ distance_score 100 = 7.5 * max 0 (1 - 100 / 500) :=
  ⟨by norm_num, C3_distance_score_formula.1 100 (by norm_num)⟩

/-- An `Option.bind` is `none` whenever its continuation always is. -/
lemma bind_none_of_forall {α β : Type} (o : Option α) (f : α → Option β)
    (h : ∀ a, f a = none) : o >>= f = none := by
  cases o
  · rfl
  · exact h _

/-- The `deploymentDashboard` parser rejects every input (shared
helper). -/
lemma parse_deployment_eq_none (s : String) :
    parse_csv_string_deployment s = none := by
  unfold parse_csv_string_deployment
  rcases hl : splitCommas (pyStrip s) with _ | ⟨p0, rest⟩
  · rfl
  · by_cases hh : pyLower p0 = "accel_x"
    · simp [hh]
    · simp only [hh, if_false]
      rcases rest with _ | ⟨q1, _ | ⟨q2, _ | ⟨q3, _ | ⟨q4, _ | ⟨q5, _ |
        ⟨q6, _ | ⟨q7, _ | ⟨q8, _ | ⟨q9, _ | ⟨q10, t⟩⟩⟩⟩⟩⟩⟩⟩⟩⟩
      all_goals try rfl
      refine bind_none_of_forall _ _ (fun ax => ?_)
      refine bind_none_of_forall _ _ (fun ay => ?_)
      refine bind_none_of_forall _ _ (fun az => ?_)
      refine bind_none_of_forall _ _ (fun la => ?_)
      refine bind_none_of_forall _ _ (fun lo => ?_)
      refine bind_none_of_forall _ _ (fun te => ?_)
      refine bind_none_of_forall _ _ (fun pr => ?_)
      refine bind_none_of_forall _ _ (fun hu => ?_)
      refine bind_none_of_forall _ _ (fun al => ?_)
      rfl

/-- C10: the `deploymentDashboard` CSV parser returns `None` on every
input string: any line passing the exact-10-field arity check is indexed
at `parts[10]`, which cannot exist, so the success branch is
unreachable — no line whatsoever decodes in that variant. -/
theorem C10_deployment_parser_always_none :
    ∀ s : String, parse_csv_string_deployment s = none :=
  fun s => parse_deployment_eq_none s

/-- C6: any line whose first comma-separated field, case-insensitively,
equals the header token `"accel_x"` is silently skipped (`None`, not an
error) by all three parser variants, regardless of the remaining
fields. -/
theorem C6_header_skip :
    ∀ (s p0 : String) (rest : List String),
      splitCommas (pyStrip s) = p0 :: rest →
      pyLower p0 = "accel_x" →
      parse_csv_string_unified s = none ∧
      parse_csv_string_deploy s = none ∧
      parse_csv_string_deployment s = none := by
  intro s p0 rest hl hlow
  have hst : strStarts (pyLower p0) "accel" = true := by
    rw [hlow]
    decide
  refine ⟨?_, ?_, ?_⟩
  · unfold parse_csv_string_unified
    rw [hl]
    simp [hst]
  · unfold parse_csv_string_deploy
    rw [hl]
    simp [hlow]
  · unfold parse_csv_string_deployment
    rw [hl]
    simp [hlow]

/-- C6 witness: the header line `"ACCEL_X,accel_y,junk"` (wrong arity and
non-numeric fields) is skipped by all three parsers. -/
theorem C6_header_skip_witness :
    splitCommas (pyStrip "ACCEL_X,accel_y,junk")
        = ["ACCEL_X", "accel_y", "junk"] ∧
    pyLower "ACCEL_X" = "accel_x" ∧
    parse_csv_string_unified "ACCEL_X,accel_y,junk" = none ∧
    parse_csv_string_deploy "ACCEL_X,accel_y,junk" = none ∧
    parse_csv_string_deployment "ACCEL_X,accel_y,junk" = none := by
  have h1 : splitCommas (pyStrip "ACCEL_X,accel_y,junk")
      = ["ACCEL_X", "accel_y", "junk"] := by decide
  have h2 : pyLower "ACCEL_X" = "accel_x" := by decide
  have h3 := C6_header_skip "ACCEL_X,accel_y,junk" "ACCEL_X"
    ["accel_y", "junk"] h1 h2
  exact ⟨h1, h2, h3.1, h3.2.1, h3.2.2⟩

/-- C4 counterexample: an 11-field line (one more than the canonical 10)
is successfully decoded by the `unifiedDashboard` parser rather than
rejected — its arity check is only `len(parts) < 10`. -/
theorem C4_counterexample_eleven_fields_decode :
    (splitCommas (pyStrip "1,2,3,4,5,6,7,8,9,GROUND,extra")).length = 11 ∧
    parse_csv_string_unified "1,2,3,4,5,6,7,8,9,GROUND,extra"
      = some ⟨1, 2, 3, 4, 5, 6, 7, 8, 9, "GROUND"⟩ := by
  constructor
  · decide
  · simp [parse_csv_string_unified, splitCommas, pyStrip, pyFloat,
      digitsToNat, decDigit, splitFields, strStarts, pyLower, leadsWith]

/-- C4 (amended): a 9-field line fails decode in every parser variant;
an 11-field line fails decode in the `deployDashboard` and
`deploymentDashboard` variants (exact-10 arity check), while the
`unifiedDashboard` variant only rejects fewer than 10 fields. -/
theorem C4_arity_check_amended :
    (∀ (s : String) (q0 q1 q2 q3 q4 q5 q6 q7 q8 : String),
       splitCommas (pyStrip s) = [q0, q1, q2, q3, q4, q5, q6, q7, q8] →
       parse_csv_string_unified s = none ∧
       parse_csv_string_deploy s = none ∧
       parse_csv_string_deployment s = none) ∧
    (∀ (s : String) (q0 q1 q2 q3 q4 q5 q6 q7 q8 q9 q10 : String),
       splitCommas (pyStrip s)
           = [q0, q1, q2, q3, q4, q5, q6, q7, q8, q9, q10] →
       parse_csv_string_deploy s = none ∧
       parse_csv_string_deployment s = none) := by
  constructor
  · intro s q0 q1 q2 q3 q4 q5 q6 q7 q8 hl
    refine ⟨?_, ?_, ?_⟩
    · unfold parse_csv_string_unified
      rw [hl]
      by_cases hh : strStarts (pyLower q0) "accel" = true
      · simp [hh]
      · simp [hh]
    · unfold parse_csv_string_deploy
      rw [hl]
      by_cases hh : pyLower q0 = "accel_x"
      · simp [hh]
      · simp [hh]
    · exact parse_deployment_eq_none s
  · intro s q0 q1 q2 q3 q4 q5 q6 q7 q8 q9 q10 hl
    refine ⟨?_, ?_⟩
    · unfold parse_csv_string_deploy
      rw [hl]
      by_cases hh : pyLower q0 = "accel_x"
      · simp [hh]
      · simp [hh]
    · exact parse_deployment_eq_none s

/-- C4 witness: the amended theorem instantiated on a concrete 9-field
line and a concrete 11-field line. -/
theorem C4_arity_check_amended_witness :
    parse_csv_string_unified "1,2,3,4,5,6,7,8,9" = none ∧
    parse_csv_string_deploy "1,2,3,4,5,6,7,8,9" = none ∧
    parse_csv_string_deploy "1,2,3,4,5,6,7,8,9,GROUND,extra" = none := by
  have h9 := C4_arity_check_amended.1 "1,2,3,4,5,6,7,8,9"
    "1" "2" "3" "4" "5" "6" "7" "8" "9" (by decide)
  have h11 := C4_arity_check_amended.2 "1,2,3,4,5,6,7,8,9,GROUND,extra"
    "1" "2" "3" "4" "5" "6" "7" "8" "9" "GROUND" "extra" (by decide)
  exact ⟨h9.1, h9.2.1, h11.1⟩

/-- A single `update_board_data` call never clears any of the four sticky
deploy flags (shared helper). -/
lemma update_board_data_flags_mono (st : SharedDataStore) (bid : String)
    (p : Reading) (now : ℚ) (b : String) :
    (mainFlag st b = true → mainFlag (update_board_data st bid p now) b = true) ∧
    (secondFlag st b = true → secondFlag (update_board_data st bid p now) b = true) ∧
    (mainHist st b = true → mainHist (update_board_data st bid p now) b = true) ∧
    (secondHist st b = true → secondHist (update_board_data st bid p now) b = true) := by
  by_cases hb : b = bid
  · subst hb
    unfold mainFlag secondFlag mainHist secondHist update_board_data
    by_cases h1 : (strContains (pyUpper p.phase) "MAIN"
        && strContains (pyUpper p.phase) "DEPLOY") = true
    · simp [h1]
    · by_cases h2 : (strContains (pyUpper p.phase) "SECOND"
          && strContains (pyUpper p.phase) "DEPLOY") = true
      · simp [h1, h2]
      · simp [h1, h2]
  · unfold mainFlag secondFlag mainHist secondHist update_board_data
    simp [hb]

/-- Flag monotonicity extends over any ingest sequence (shared helper). -/
lemma ingest_list_flags_mono (ups : List (String × Reading × ℚ)) :
    ∀ (st : SharedDataStore) (b : String),
    (mainFlag st b = true → mainFlag (ingest_list st ups) b = true) ∧
    (secondFlag st b = true → secondFlag (ingest_list st ups) b = true) ∧
    (mainHist st b = true → mainHist (ingest_list st ups) b = true) ∧
    (secondHist st b = true → secondHist (ingest_list st ups) b = true) := by
  induction ups with
  | nil => intro st b; simp [ingest_list]
  | cons u t ih =>
    intro st b
    have hstep := update_board_data_flags_mono st u.1 u.2.1 u.2.2 b
    have hrest := ih (update_board_data st u.1 u.2.1 u.2.2) b
    have hfold : ingest_list st (u :: t)
        = ingest_list (update_board_data st u.1 u.2.1 u.2.2) t := rfl
    rw [hfold]
    exact ⟨fun h => hrest.1 (hstep.1 h),
           fun h => hrest.2.1 (hstep.2.1 h),
           fun h => hrest.2.2.1 (hstep.2.2.1 h),
           fun h => hrest.2.2.2 (hstep.2.2.2 h)⟩

/-- C1: the aggregator's `main_deploy`/`second_deploy` flags (and their
`deployment_history` mirrors) are monotonic — once true, no later ingest
resets them — and for the ingest sequence with phases
`["RISING", "MAIN DEPLOY", "COASTING", "GROUND"]` on one board,
`main_deploy` is true after the second ingest and stays true through the
third and fourth, whose phases contain neither `"MAIN"` nor
`"DEPLOY"`. -/
theorem C1_sticky_deploy_flags :
    (∀ (ups : List (String × Reading × ℚ)) (st : SharedDataStore)
       (b : String),
       (mainFlag st b = true → mainFlag (ingest_list st ups) b = true) ∧
       (secondFlag st b = true → secondFlag (ingest_list st ups) b = true) ∧
       (mainHist st b = true → mainHist (ingest_list st ups) b = true) ∧
       (secondHist st b = true →
          secondHist (ingest_list st ups) b = true)) ∧
    mainFlag (ingest_list empty_store (stickySeq.take 1)) "0" = false ∧
    mainFlag (ingest_list empty_store (stickySeq.take 2)) "0" = true ∧
    mainFlag (ingest_list empty_store (stickySeq.take 3)) "0" = true ∧
    mainFlag (ingest_list empty_store stickySeq) "0" = true ∧
    mainHist (ingest_list empty_store stickySeq) "0" = true := by
  refine ⟨fun ups st b => ingest_list_flags_mono ups st b, ?_, ?_, ?_, ?_, ?_⟩ <;>
    simp [stickySeq, ingest_list, update_board_data, empty_store, mainFlag,
      mainHist, init_board_data, phaseReading, pyUpper, strContains, hasSub,
      leadsWith]

/-- C1 witness: the monotonicity component applied to one further ingest
on top of the concrete sequence. -/
theorem C1_sticky_deploy_flags_witness :
    mainFlag (ingest_list empty_store stickySeq) "0" = true ∧
    mainFlag
      (ingest_list (ingest_list empty_store stickySeq)
        [("0", phaseReading "LANDED", 4)]) "0" = true := by
  have h4 := C1_sticky_deploy_flags.2.2.2.2.1
  exact ⟨h4,
    (C1_sticky_deploy_flags.1 [("0", phaseReading "LANDED", 4)]
      (ingest_list empty_store stickySeq) "0").1 h4⟩

/-- C5: ingesting a reading with raw phase `"MAIN DEPLOY"` appends the
display phase `"DESCENT"` for that sample while setting the board's
`main_deploy` flag (and its `deployment_history` mirror), and a
subsequent `get_board_status` snapshot reports both phase `"DESCENT"` and
`main_deployed = true`. -/
theorem C5_display_remap :
    ∀ (st : SharedDataStore) (bid : String) (p : Reading) (now : ℚ),
      p.phase = "MAIN DEPLOY" →
      ((update_board_data st bid p now).board_list bid).map
          (fun b => b.phase.getLastD "UNKNOWN") = some "DESCENT" ∧
      mainFlag (update_board_data st bid p now) bid = true ∧
      mainHist (update_board_data st bid p now) bid = true ∧
      (get_board_status (update_board_data st bid p now) bid).map
          (fun r => (r.phase, r.main_deployed)) = some ("DESCENT", true) := by
  intro st bid p now hp
  have hmain : strContains (pyUpper p.phase) "MAIN" = true := by
    rw [hp]; decide
  have hdep : strContains (pyUpper p.phase) "DEPLOY" = true := by
    rw [hp]; decide
  unfold update_board_data mainFlag mainHist get_board_status
  simp [hmain, hdep]

/-- C5 witness: the theorem at the empty store, board `"0"`, and the
`"MAIN DEPLOY"` reading. -/
theorem C5_display_remap_witness :
    (phaseReading "MAIN DEPLOY").phase = "MAIN DEPLOY" ∧
    (get_board_status
        (update_board_data empty_store "0" (phaseReading "MAIN DEPLOY") 0)
        "0").map (fun r => (r.phase, r.main_deployed))
      = some ("DESCENT", true) :=
  ⟨rfl,
   (C5_display_remap empty_store "0" (phaseReading "MAIN DEPLOY") 0
      rfl).2.2.2⟩

end Mgbc
